import Mathlib

/-!
Shallow embedding of the task-orchestration subsystem of the
unified-agent-framework repository: the agent registry
(src/registry/registry.ts), the priority task queue
(src/orchestrator/queue.ts), the task router (src/orchestrator/router.ts)
and the task executor (src/orchestrator/executor.ts).

Database effects (the supabase tables task_executions, tasks, agent_logs
and the bull job queue) are modelled as explicit state threaded through
the operations.  Timestamps are natural numbers supplied by the caller
in place of Date.now.  The Sys.trace field is the observation channel of
the embedding: it records, in order, every status value written to a
task_executions row, so that properties about how often and in which
order statuses are written can be stated.
-/

namespace UAF

/-- Execution statuses written to the task_executions table by the source. -/
inductive ExecStatus
  | pending
  | running
  | completed
  | failed
  | cancelled
deriving DecidableEq, Repr

/-- Bull job states as returned by job.getState in the source. -/
inductive JobState
  | waiting
  | active
  | delayed
  | paused
  | completed
  | failed
deriving DecidableEq, Repr

/-- A row of the persistent tasks table (task definitions), as read by
TaskExecutor.getTaskDefinition. -/
structure TaskDefRow where
  id : String
  type : String
deriving DecidableEq, Repr

/-- Task configuration as produced by TaskRouter.routeTask. -/
structure TaskConfig where
  priority : String
  timeout : Nat
  retries : Nat
deriving DecidableEq, Repr

/-- The default task configuration hard-coded in TaskRouter.routeTask. -/
def defaultTaskConfig : TaskConfig :=
  { priority := "medium", timeout := 60000, retries := 3 }

/-- Caller-supplied task parameters (a string-keyed map in the source). -/
abbrev Params := List (String × String)

/-- A row of the task_executions table, as inserted by
TaskExecutor.submitTask and updated by the processors. -/
structure ExecRow where
  id : String
  task_id : String
  agent_id : String
  brand : Option String
  parameters : Params
  status : ExecStatus
  priority : String
  result : Option String
  error : Option String
  created_at : Nat
  started_at : Option Nat
  completed_at : Option Nat
deriving DecidableEq, Repr

/-- A row of the agent_logs table, restricted to the fields consulted by
TaskExecutor.cancelTask (execution_id, message, metadata.jobId). -/
structure LogRow where
  execution_id : String
  message : String
  metadata_jobId : Option String
deriving DecidableEq, Repr

/-- The context handed to BaseAgent.executeTask by the processor. -/
structure TaskContext where
  executionId : String
  taskType : String
  brand : Option String
  parameters : Params
  priority : String
  taskConfig : TaskConfig

/-- An agent as stored in the registry: the identity and capability data
of BaseAgent.getInfo, together with its executeTask behaviour.  An agent
either returns a result value or throws an error message. -/
structure Agent where
  id : String
  name : String
  capabilities : List String
  executeTask : TaskContext → Except String String

/-- The error classes of src/core/errors.ts that the orchestration
subsystem raises, each carrying its constructor argument.  jsError is a
plain JavaScript Error (as thrown by the catch-all of
TaskRouter.routeTask). -/
inductive OrchError
  | taskNotFound (arg : String)
  | agentNotFound (msg : String)
  | taskExecution (msg : String)
  | brandConfig (msg : String)
  | jsError (msg : String)
deriving DecidableEq, Repr

/-- The error code string attached by each error class in
src/core/errors.ts. -/
def OrchError.code : OrchError → String
  | .taskNotFound _ => "TASK_NOT_FOUND"
  | .agentNotFound _ => "AGENT_NOT_FOUND"
  | .taskExecution _ => "TASK_EXECUTION_ERROR"
  | .brandConfig _ => "BRAND_CONFIG_ERROR"
  | .jsError _ => "ERROR"

/-- The message of each error, as built by the constructors in
src/core/errors.ts (TaskNotFoundError prefixes its argument). -/
def OrchError.message : OrchError → String
  | .taskNotFound arg => "Task type not found: " ++ arg
  | .agentNotFound m => m
  | .taskExecution m => m
  | .brandConfig m => m
  | .jsError m => m

/-- AgentRegistry.registerAgent: this.agents.set(agentInfo.id, agent).
A JavaScript Map.set replaces an existing key in place (keeping its
insertion position) and appends a new key at the end. -/
def registerAgent (agents : List Agent) (a : Agent) : List Agent :=
  if agents.any (fun b => b.id == a.id) then
    agents.map (fun b => if b.id == a.id then a else b)
  else
    agents ++ [a]

/-- AgentRegistry.findAgentForTask: the first registered agent whose
capability list contains the task type (BaseAgent.canExecute). -/
def findAgentForTask (agents : List Agent) (taskType : String) : Option Agent :=
  agents.find? (fun a => a.capabilities.contains taskType)

/-- TaskPriority.HIGHEST from src/orchestrator/queue.ts. -/
def TaskPriority.HIGHEST : Nat := 1

/-- TaskPriority.HIGH from src/orchestrator/queue.ts. -/
def TaskPriority.HIGH : Nat := 5

/-- TaskPriority.MEDIUM from src/orchestrator/queue.ts. -/
def TaskPriority.MEDIUM : Nat := 10

/-- TaskPriority.LOW from src/orchestrator/queue.ts. -/
def TaskPriority.LOW : Nat := 15

/-- TaskPriority.LOWEST from src/orchestrator/queue.ts. -/
def TaskPriority.LOWEST : Nat := 20

/-- JavaScript toLowerCase on the embedded strings: character-wise
Char.toLower, exactly as String.toLower, but written over the character
list so that it evaluates by kernel reduction. -/
def toLowerStr (s : String) : String :=
  String.mk (s.data.map Char.toLower)

/-- TaskQueue.getPriorityValue: switch on priority.toLowerCase with
TaskPriority.MEDIUM as the default branch. -/
def getPriorityValue (priority : String) : Nat :=
  if toLowerStr priority = "highest" then TaskPriority.HIGHEST
  else if toLowerStr priority = "high" then TaskPriority.HIGH
  else if toLowerStr priority = "medium" then TaskPriority.MEDIUM
  else if toLowerStr priority = "low" then TaskPriority.LOW
  else if toLowerStr priority = "lowest" then TaskPriority.LOWEST
  else TaskPriority.MEDIUM

/-- The data payload handed to TaskQueue.addTask by
TaskExecutor.submitTask. -/
structure JobData where
  executionId : String
  taskType : String
  brand : Option String
  parameters : Params
  callback : Option String
  priority : String
  config : TaskConfig
deriving DecidableEq, Repr

/-- A bull job held by the queue: name is the task type, priority the
numeric priority computed by getPriorityValue. -/
structure QueueJob where
  id : String
  name : String
  data : JobData
  priority : Nat
  state : JobState
deriving DecidableEq, Repr

/-- TaskQueue.addTask: computes the numeric priority and calls
queue.add; the Except String String argument models whether the
underlying bull add call returns a job id or throws.  On a throw the
method raises TaskExecutionError with the prefixed message. -/
def addTask (jobs : List QueueJob) (queueAdd : Except String String)
    (taskType : String) (data : JobData) (priority : String) :
    Except OrchError String × List QueueJob :=
  let numericPriority := getPriorityValue priority
  match queueAdd with
  | .error msg => (.error (.taskExecution ("Failed to queue task: " ++ msg)), jobs)
  | .ok jobId =>
      (.ok jobId,
        jobs ++ [{ id := jobId, name := taskType, data := data,
                   priority := numericPriority, state := JobState.waiting }])

/-- TaskQueue.cancelJob: returns false if the job is absent or its state
is completed or failed; otherwise removes the job and returns true. -/
def cancelJob (jobs : List QueueJob) (jobId : String) : Bool × List QueueJob :=
  match jobs.find? (fun j => j.id == jobId) with
  | none => (false, jobs)
  | some j =>
    if j.state = JobState.completed ∨ j.state = JobState.failed then
      (false, jobs)
    else
      (true, jobs.filter (fun k => !(k.id == jobId)))

/-- The persistent store: the three tables the orchestration subsystem
touches. -/
structure Db where
  tasks : List TaskDefRow
  task_executions : List ExecRow
  agent_logs : List LogRow
deriving DecidableEq, Repr

/-- Whole-system state: the store, the queued bull jobs, and the trace
of status writes (the observation channel of the embedding). -/
structure Sys where
  db : Db
  jobs : List QueueJob
  trace : List (String × ExecStatus)
deriving DecidableEq, Repr

/-- A supabase update filtered by id: applies g to every row whose id
matches (updates never change the id). -/
def updateRows (l : List ExecRow) (id : String) (g : ExecRow → ExecRow) :
    List ExecRow :=
  l.map (fun r => if r.id == id then g r else r)

/-- A supabase select ... .eq('id', id).single() on task_executions. -/
def findExec (l : List ExecRow) (id : String) : Option ExecRow :=
  l.find? (fun r => r.id == id)

/-- The collaborators of the executor that live outside the store: the
registry contents, the brand-configuration service (whose calls may
throw), and the outcome of the underlying queue add. -/
structure Env where
  agents : List Agent
  brandTaskConfig : String → String → Except String TaskConfig
  brandTaskParams : String → String → Params → Except String Params
  brandConfigData : String → Except String String
  queueAdd : Except String String

/-- JavaScript string disjunction a || b (the empty string is falsy). -/
def jsOrString (a b : String) : String :=
  if a = "" then b else a

/-- TaskRouter.routeTask: find an agent, then take the hard-coded
default config or the brand config.  A missing agent raises
TaskNotFoundError with the message below; any other failure is caught
and re-thrown as a plain Error. -/
def routeTask (env : Env) (taskType : String) (brand : Option String) :
    Except OrchError (String × TaskConfig) :=
  match findAgentForTask env.agents taskType with
  | none => .error (.taskNotFound ("No agent found for task type: " ++ taskType))
  | some agent =>
    match brand with
    | none => .ok (agent.id, defaultTaskConfig)
    | some b =>
      match env.brandTaskConfig b taskType with
      | .ok cfg => .ok (agent.id, cfg)
      | .error msg => .error (.jsError ("Error routing task: " ++ msg))

/-- TaskRouter.processTaskParameters: passthrough without a brand, and a
fallback to the original parameters when the brand merge throws. -/
def processTaskParameters (env : Env) (taskType : String) (parameters : Params)
    (brand : Option String) : Params :=
  match brand with
  | none => parameters
  | some b =>
    match env.brandTaskParams b taskType parameters with
    | .ok p => p
    | .error _ => parameters

/-- TaskExecutor.submitTask: validate the task type against the tasks
table, route, resolve parameters, insert a pending row, then enqueue.
The catch block re-throws TaskNotFoundError and AgentNotFoundError and
wraps every other failure in TaskExecutionError; it performs no store
update. -/
def submitTask (env : Env) (sys : Sys) (executionId : String) (now : Nat)
    (taskType : String) (brand : Option String) (parameters : Params)
    (priority : Option String) (callback : Option String) :
    Except OrchError String × Sys :=
  match sys.db.tasks.find? (fun t => t.type == taskType) with
  | none => (.error (.taskNotFound taskType), sys)
  | some taskDef =>
    match routeTask env taskType brand with
    | .error e =>
      match e with
      | .taskNotFound a => (.error (.taskNotFound a), sys)
      | .agentNotFound m => (.error (.agentNotFound m), sys)
      | e2 => (.error (.taskExecution ("Failed to submit task: " ++ e2.message)), sys)
    | .ok (agentId, taskConfig) =>
      let processedParameters := processTaskParameters env taskType parameters brand
      let effectivePriority :=
        jsOrString (priority.getD "") (jsOrString taskConfig.priority "medium")
      let row : ExecRow :=
        { id := executionId, task_id := taskDef.id, agent_id := agentId,
          brand := brand, parameters := processedParameters,
          status := ExecStatus.pending, priority := effectivePriority,
          result := none, error := none, created_at := now,
          started_at := none, completed_at := none }
      let sys1 : Sys :=
        { sys with
          db := { sys.db with task_executions := sys.db.task_executions ++ [row] },
          trace := sys.trace ++ [(executionId, ExecStatus.pending)] }
      let jobData : JobData :=
        { executionId := executionId, taskType := taskType, brand := brand,
          parameters := processedParameters, callback := callback,
          priority := effectivePriority, config := taskConfig }
      match addTask sys1.jobs env.queueAdd taskType jobData effectivePriority with
      | (.error e, _) =>
        (.error (.taskExecution ("Failed to submit task: " ++ e.message)), sys1)
      | (.ok _, jobs1) => (.ok executionId, { sys1 with jobs := jobs1 })

/-- The processor registered by TaskExecutor.setupTaskProcessors: write
running and started_at, look up the agent, fetch the brand data if a
brand is set, invoke the agent, and write the terminal row.  The catch
block writes failed together with the error message and completed_at,
then re-throws. -/
def processJob (env : Env) (sys : Sys) (job : QueueJob) (now : Nat) :
    Except String String × Sys :=
  let executionId := job.data.executionId
  let sys1 : Sys :=
    { sys with
      db := { sys.db with
        task_executions := updateRows sys.db.task_executions executionId
          (fun r => { r with status := ExecStatus.running, started_at := some now }) },
      trace := sys.trace ++ [(executionId, ExecStatus.running)] }
  let fail : String → Sys → Except String String × Sys := fun msg s =>
    (.error msg,
      { s with
        db := { s.db with
          task_executions := updateRows s.db.task_executions executionId
            (fun r => { r with status := ExecStatus.failed, error := some msg,
                               completed_at := some now }) },
        trace := s.trace ++ [(executionId, ExecStatus.failed)] })
  match findAgentForTask env.agents job.data.taskType with
  | none => fail ("No agent available to execute task type: " ++ job.data.taskType) sys1
  | some agent =>
    let brandFetch : Except String Unit :=
      match job.data.brand with
      | none => .ok ()
      | some b => (env.brandConfigData b).map (fun _ => ())
    match brandFetch with
    | .error msg => fail msg sys1
    | .ok _ =>
      let ctx : TaskContext :=
        { executionId := executionId, taskType := job.data.taskType,
          brand := job.data.brand, parameters := job.data.parameters,
          priority := jsOrString job.data.priority "medium",
          taskConfig := job.data.config }
      match agent.executeTask ctx with
      | .error msg => fail msg sys1
      | .ok result =>
        (.ok result,
          { sys1 with
            db := { sys1.db with
              task_executions := updateRows sys1.db.task_executions executionId
                (fun r => { r with status := ExecStatus.completed,
                                   result := some result,
                                   completed_at := some now }) },
            trace := sys1.trace ++ [(executionId, ExecStatus.completed)] })

/-- Modelled from the spec: the retry contract of the external bull
queue library (section 4.5), whose sources are not part of this
repository.  The processor is invoked, attempts incrementing on each
throw, until it succeeds or the attempt count reaches maxAttempts (the
fuel argument).  Returns the number of processor invocations together
with the final state. -/
def runJobWithRetries (env : Env) (job : QueueJob) (now : Nat) :
    Nat → Sys → Nat × Sys
  | 0, sys => (0, sys)
  | Nat.succ n, sys =>
    match processJob env sys job now with
    | (.ok _, sys1) => (1, sys1)
    | (.error _, sys1) =>
      if n = 0 then (1, sys1)
      else
        let r := runJobWithRetries env job now n sys1
        (r.1 + 1, r.2)

/-- Number of failed-status writes recorded for an execution in a trace. -/
def failedWrites (trace : List (String × ExecStatus)) (executionId : String) : Nat :=
  (trace.filter
    (fun w => decide (w.1 = executionId ∧ w.2 = ExecStatus.failed))).length

/-- TaskExecutor.cancelTask: read the row, refuse unless the status is
pending or running, best-effort remove the queue job recorded in
agent_logs, then write cancelled and completed_at. -/
def cancelTask (sys : Sys) (executionId : String) (now : Nat) :
    Except OrchError Bool × Sys :=
  match findExec sys.db.task_executions executionId with
  | none => (.error (.taskNotFound ("Task execution not found: " ++ executionId)), sys)
  | some row =>
    if row.status ≠ ExecStatus.pending ∧ row.status ≠ ExecStatus.running then
      (.ok false, sys)
    else
      let logRow := sys.db.agent_logs.find?
        (fun l => l.execution_id == executionId && l.message == "Task added to queue")
      let jobs1 :=
        match logRow with
        | some l =>
          match l.metadata_jobId with
          | some jobId => (cancelJob sys.jobs jobId).2
          | none => sys.jobs
        | none => sys.jobs
      (.ok true,
        { db := { sys.db with
            task_executions := updateRows sys.db.task_executions executionId
              (fun r => { r with status := ExecStatus.cancelled,
                                 completed_at := some now }) },
          jobs := jobs1,
          trace := sys.trace ++ [(executionId, ExecStatus.cancelled)] })

/-- The two shapes returned by TaskExecutor.getTaskResult. -/
inductive ResultView
  | inProgress (status : ExecStatus) (message : String)
  | finished (status : ExecStatus) (result : Option String) (error : Option String)
      (completedAt : Option Nat)
deriving DecidableEq, Repr

/-- TaskExecutor.getTaskResult: a missing row raises TaskNotFoundError;
a status other than completed or failed yields the in-progress message;
otherwise the stored fields are returned. -/
def getTaskResult (sys : Sys) (executionId : String) : Except OrchError ResultView :=
  match findExec sys.db.task_executions executionId with
  | none => .error (.taskNotFound ("Task execution not found: " ++ executionId))
  | some row =>
    if row.status ≠ ExecStatus.completed ∧ row.status ≠ ExecStatus.failed then
      .ok (.inProgress row.status "Task execution is still in progress")
    else
      .ok (.finished row.status row.result row.error row.completed_at)

/-- The valid status transitions of the specification (section 4.4). -/
def validTransition : ExecStatus → ExecStatus → Bool
  | .pending, .running => true
  | .running, .completed => true
  | .running, .failed => true
  | .pending, .cancelled => true
  | .running, .cancelled => true
  | _, _ => false

/-! Concrete fixtures used by witnesses and counterexamples. -/

/-- An agent capable of task type t1 that always succeeds. -/
def okAgent : Agent :=
  { id := "agent-1", name := "EchoAgent", capabilities := ["t1"],
    executeTask := fun _ => Except.ok "done" }

/-- An agent capable of task type t1 that always throws. -/
def failAgent : Agent :=
  { id := "agent-2", name := "FailAgent", capabilities := ["t1"],
    executeTask := fun _ => Except.error "boom" }

/-- An environment with the given registry contents and queue-add
outcome, and brand collaborators that always succeed. -/
def baseEnv (agents : List Agent) (queueAdd : Except String String) : Env :=
  { agents := agents,
    brandTaskConfig := fun _ _ => Except.ok defaultTaskConfig,
    brandTaskParams := fun _ _ p => Except.ok p,
    brandConfigData := fun _ => Except.ok "cfg",
    queueAdd := queueAdd }

/-- A task-definition row for task type t1. -/
def taskDefT1 : TaskDefRow := { id := "task-1", type := "t1" }

/-- A system whose tasks table holds the t1 definition and nothing else. -/
def sysWithDef : Sys :=
  { db := { tasks := [taskDefT1], task_executions := [], agent_logs := [] },
    jobs := [], trace := [] }

/-- A system whose tasks table is empty. -/
def sysNoDef : Sys :=
  { db := { tasks := [], task_executions := [], agent_logs := [] },
    jobs := [], trace := [] }

/-- Job data for execution e1 of task type t1, no brand, no callback. -/
def jdE1 : JobData :=
  { executionId := "e1", taskType := "t1", brand := none, parameters := [],
    callback := none, priority := "medium", config := defaultTaskConfig }

/-- A bull job for execution e1 in the active (leased) state. -/
def activeJobE1 : QueueJob :=
  { id := "job-1", name := "t1", data := jdE1, priority := 10,
    state := JobState.active }

/-- An execution row for e1 already in the terminal cancelled state. -/
def cancelledRowE1 : ExecRow :=
  { id := "e1", task_id := "task-1", agent_id := "agent-1", brand := none,
    parameters := [], status := ExecStatus.cancelled, priority := "medium",
    result := none, error := none, created_at := 1, started_at := some 2,
    completed_at := some 3 }

/-- An execution row for e1 in the pending state. -/
def pendingRowE1 : ExecRow :=
  { id := "e1", task_id := "task-1", agent_id := "agent-1", brand := none,
    parameters := [], status := ExecStatus.pending, priority := "medium",
    result := none, error := none, created_at := 1, started_at := none,
    completed_at := none }

/-- An execution row for e1 in the terminal completed state with a
stored result. -/
def completedRowE1 : ExecRow :=
  { id := "e1", task_id := "task-1", agent_id := "agent-1", brand := none,
    parameters := [], status := ExecStatus.completed, priority := "medium",
    result := some "done", error := none, created_at := 1, started_at := some 2,
    completed_at := some 3 }

/-- A system holding exactly the given execution rows and nothing else. -/
def sysWithRows (rows : List ExecRow) : Sys :=
  { db := { tasks := [taskDefT1], task_executions := rows, agent_logs := [] },
    jobs := [], trace := [] }

/-- An agent with identity agent-a and capability x. -/
def echoAgentA : Agent :=
  { id := "agent-a", name := "EchoA", capabilities := ["x"],
    executeTask := fun _ => Except.ok "a" }

/-- A second, different agent with the same identity agent-a. -/
def echoAgentA2 : Agent :=
  { id := "agent-a", name := "EchoA2", capabilities := ["y"],
    executeTask := fun _ => Except.ok "a2" }

/-- An environment whose only agent is the always-throwing failAgent
and whose queue add succeeds. -/
def envFail : Env := baseEnv [failAgent] (Except.ok "j")

/-! Helper lemmas shared by the claim theorems. -/

/-- Two jobs of a queue with no duplicate ids that share an id are the
same job. -/
theorem job_id_inj {jobs : List QueueJob}
    (hnodup : (jobs.map QueueJob.id).Nodup) {a b : QueueJob}
    (ha : a ∈ jobs) (hb : b ∈ jobs) (hid : a.id = b.id) : a = b :=
  List.inj_on_of_nodup_map hnodup ha hb hid

/-- find? over a cons whose head satisfies the predicate, with the
predicate explicit so that rewriting is unambiguous. -/
theorem find?_cons_pos {α : Type} (p : α → Bool) (a : α) (l : List α)
    (h : p a = true) : List.find? p (a :: l) = some a :=
  List.find?_cons_of_pos l h

/-- find? over a cons whose head fails the predicate, with the
predicate explicit so that rewriting is unambiguous. -/
theorem find?_cons_neg {α : Type} (p : α → Bool) (a : α) (l : List α)
    (h : p a = false) : List.find? p (a :: l) = List.find? p l := by
  apply List.find?_cons_of_neg
  simp [h]

/-- A filtered update commutes with row lookup: when the update keeps
ids unchanged, looking up an id in an updated table finds the updated
row. -/
theorem findExec_updateRows (l : List ExecRow) (id : String)
    (g : ExecRow → ExecRow) (hg : ∀ r, (g r).id = r.id) :
    findExec (updateRows l id g) id = (findExec l id).map g := by
  induction l with
  | nil => rfl
  | cons r t ih =>
    simp only [updateRows, List.map, findExec] at ih ⊢
    by_cases hr : (r.id == id) = true
    · have hgr : ((g r).id == id) = true := by rw [hg r]; exact hr
      rw [if_pos hr,
        find?_cons_pos (fun x => x.id == id) (g r) _ hgr,
        find?_cons_pos (fun x => x.id == id) r t hr]
      rfl
    · have hr2 : (r.id == id) = false := by
        cases h : (r.id == id) with
        | true => exact absurd h hr
        | false => rfl
      have hgr2 : ((g r).id == id) = false := by rw [hg r]; exact hr2
      rw [if_neg hr,
        find?_cons_neg (fun x => x.id == id) r _ hr2,
        find?_cons_neg (fun x => x.id == id) r t hr2]
      exact ih

/-- The row found after a filtered id-preserving update is the update
of the row found before. -/
theorem findExec_updateRows_status (l : List ExecRow) (id : String)
    (g : ExecRow → ExecRow) (hg : ∀ r, (g r).id = r.id) (row : ExecRow)
    (hfind : findExec l id = some row) :
    findExec (updateRows l id g) id = some (g row) := by
  rw [findExec_updateRows l id g hg, hfind]
  rfl

/-- Appending a fresh row to a table in which its id is absent makes it
the row found for that id. -/
theorem findExec_append_fresh (l : List ExecRow) (row : ExecRow)
    (hfresh : findExec l row.id = none) :
    findExec (l ++ [row]) row.id = some row := by
  simp only [findExec] at *
  rw [List.find?_append, hfresh]
  simp

/-! Claim theorems. -/

/-- C10: every priority string whose lowercase form is none of the five
recognized names is mapped to the same numeric priority as medium (10),
and enqueue does not fail for it; the recognized names map
case-insensitively to the strictly increasing values 1, 5, 10, 15, 20. -/
theorem C10_priority_mapping (p : String)
    (h1 : toLowerStr p ≠ "highest") (h2 : toLowerStr p ≠ "high")
    (h3 : toLowerStr p ≠ "medium") (h4 : toLowerStr p ≠ "low")
    (h5 : toLowerStr p ≠ "lowest") :
    getPriorityValue p = 10 ∧
    getPriorityValue p = getPriorityValue "medium" ∧
    (∀ jobs taskType data jobId,
      addTask jobs (Except.ok jobId) taskType data p =
        (Except.ok jobId,
          jobs ++ [{ id := jobId, name := taskType, data := data,
                     priority := 10, state := JobState.waiting }])) ∧
    (∀ q : String, toLowerStr q = "highest" → getPriorityValue q = 1) ∧
    (∀ q : String, toLowerStr q = "high" → getPriorityValue q = 5) ∧
    (∀ q : String, toLowerStr q = "medium" → getPriorityValue q = 10) ∧
    (∀ q : String, toLowerStr q = "low" → getPriorityValue q = 15) ∧
    (∀ q : String, toLowerStr q = "lowest" → getPriorityValue q = 20) := by
  have hp : getPriorityValue p = 10 := by
    simp only [getPriorityValue]
    rw [if_neg h1, if_neg h2, if_neg h3, if_neg h4, if_neg h5]
    rfl
  refine ⟨hp, by rw [hp]; decide, ?_, ?_, ?_, ?_, ?_, ?_⟩
  · intro jobs taskType data jobId
    simp [addTask, hp]
  · intro q hq
    simp only [getPriorityValue]
    rw [hq]
    decide
  · intro q hq
    simp only [getPriorityValue]
    rw [hq]
    decide
  · intro q hq
    simp only [getPriorityValue]
    rw [hq]
    decide
  · intro q hq
    simp only [getPriorityValue]
    rw [hq]
    decide
  · intro q hq
    simp only [getPriorityValue]
    rw [hq]
    decide

/-- C10 witness: the unrecognized priority URGENT maps to 10 and its
enqueue succeeds. -/
theorem C10_priority_mapping_witness :
    getPriorityValue "URGENT" = 10 ∧
    getPriorityValue "URGENT" = getPriorityValue "medium" ∧
    (∀ jobs taskType data jobId,
      addTask jobs (Except.ok jobId) taskType data "URGENT" =
        (Except.ok jobId,
          jobs ++ [{ id := jobId, name := taskType, data := data,
                     priority := 10, state := JobState.waiting }])) ∧
    (∀ q : String, toLowerStr q = "highest" → getPriorityValue q = 1) ∧
    (∀ q : String, toLowerStr q = "high" → getPriorityValue q = 5) ∧
    (∀ q : String, toLowerStr q = "medium" → getPriorityValue q = 10) ∧
    (∀ q : String, toLowerStr q = "low" → getPriorityValue q = 15) ∧
    (∀ q : String, toLowerStr q = "lowest" → getPriorityValue q = 20) :=
  C10_priority_mapping "URGENT" (by decide) (by decide) (by decide)
    (by decide) (by decide)

/-- C5 counterexample: cancelJob on a job in the active (leased) state
removes it and returns true, where the claim requires false and no
removal. -/
theorem C5_counterexample :
    cancelJob [activeJobE1] "job-1" = (true, []) ∧
    activeJobE1.state = JobState.active := by
  decide

/-- C5 (amended): cancelJob returns true exactly when the job exists in
a state other than completed and failed (including the active, leased
state), in which case it removes the job; it returns false and leaves
the queue unchanged only for missing, completed or failed jobs. -/
theorem C5_cancelJob_characterization (jobs : List QueueJob) (jobId : String)
    (hnodup : (jobs.map QueueJob.id).Nodup) :
    ((cancelJob jobs jobId).1 = true ↔
      ∃ j, j ∈ jobs ∧ j.id = jobId ∧
        j.state ≠ JobState.completed ∧ j.state ≠ JobState.failed) ∧
    ((cancelJob jobs jobId).1 = true →
      (cancelJob jobs jobId).2 = jobs.filter (fun k => !(k.id == jobId))) ∧
    ((cancelJob jobs jobId).1 = false → (cancelJob jobs jobId).2 = jobs) := by
  cases hfind : jobs.find? (fun j => j.id == jobId) with
  | none =>
    have hcj : cancelJob jobs jobId = (false, jobs) := by
      unfold cancelJob
      rw [hfind]
    rw [hcj, List.find?_eq_none] at *
    refine ⟨iff_of_false (by simp) ?_, by intro h; exact absurd h (by simp),
      fun _ => rfl⟩
    rintro ⟨k, hk, hkid, -, -⟩
    exact hfind k hk (by simp [hkid])
  | some j =>
    have hj : j ∈ jobs := List.mem_of_find?_eq_some hfind
    have hid : j.id = jobId := by
      have h2 := List.find?_some hfind
      simpa using h2
    by_cases hstate : j.state = JobState.completed ∨ j.state = JobState.failed
    · have hcj : cancelJob jobs jobId = (false, jobs) := by
        unfold cancelJob
        rw [hfind]
        exact if_pos hstate
      rw [hcj]
      refine ⟨iff_of_false (by simp) ?_, by intro h; exact absurd h (by simp),
        fun _ => rfl⟩
      rintro ⟨k, hk, hkid, hk1, hk2⟩
      have hkj : k = j := job_id_inj hnodup hk hj (hkid.trans hid.symm)
      subst hkj
      rcases hstate with h | h
      · exact hk1 h
      · exact hk2 h
    · have hcj : cancelJob jobs jobId =
          (true, jobs.filter (fun k => !(k.id == jobId))) := by
        unfold cancelJob
        rw [hfind]
        exact if_neg hstate
      rw [hcj]
      push_neg at hstate
      exact ⟨iff_of_true rfl ⟨j, hj, hid, hstate.1, hstate.2⟩, fun _ => rfl,
        by intro h; exact absurd h (by simp)⟩

/-- C5 witness: the characterization applied to a one-job queue holding
the active job. -/
theorem C5_cancelJob_characterization_witness :
    ((cancelJob [activeJobE1] "job-1").1 = true ↔
      ∃ j, j ∈ [activeJobE1] ∧ j.id = "job-1" ∧
        j.state ≠ JobState.completed ∧ j.state ≠ JobState.failed) ∧
    ((cancelJob [activeJobE1] "job-1").1 = true →
      (cancelJob [activeJobE1] "job-1").2 =
        [activeJobE1].filter (fun k => !(k.id == "job-1"))) ∧
    ((cancelJob [activeJobE1] "job-1").1 = false →
      (cancelJob [activeJobE1] "job-1").2 = [activeJobE1]) :=
  C5_cancelJob_characterization [activeJobE1] "job-1" (by decide)

/-- Replacing the entry of an already-present id in the registry list
makes the replacement the agent found under that id. -/
theorem find?_map_replace (l : List Agent) (a : Agent)
    (h : ∃ b, b ∈ l ∧ b.id = a.id) :
    (l.map (fun c => if c.id == a.id then a else c)).find?
      (fun c => c.id == a.id) = some a := by
  induction l with
  | nil =>
    rcases h with ⟨b, hb, -⟩
    cases hb
  | cons c t ih =>
    by_cases hc : c.id == a.id
    · simp only [List.map, if_pos hc]
      rw [List.find?_cons_of_pos]
      simp
    · rcases h with ⟨b, hb, hid⟩
      cases hb with
      | head => exact absurd (by simp [hid]) hc
      | tail _ hbt =>
        simp only [List.map, if_neg hc]
        have hc2 : (c.id == a.id) = false := by
          cases h : (c.id == a.id) with
          | true => exact absurd h hc
          | false => rfl
        rw [find?_cons_neg (fun x => x.id == a.id) c _ hc2]
        exact ih ⟨b, hbt, hid⟩

/-- C8 counterexample: registering a second agent whose identity is
already registered silently replaces the stored entry in place; the
operation has no failure outcome and raises no DuplicateAgentError. -/
theorem C8_counterexample :
    (registerAgent [echoAgentA] echoAgentA2).map Agent.name = ["EchoA2"] ∧
    ((registerAgent [echoAgentA] echoAgentA2).find?
        (fun c => c.id == "agent-a")).map Agent.capabilities = some ["y"] ∧
    (registerAgent [echoAgentA] echoAgentA2).length = 1 :=
  ⟨rfl, rfl, rfl⟩

/-- C8 (amended): registering an agent whose identity is already
registered silently replaces the existing entry in place, keeping the
registry size unchanged; no error is raised. -/
theorem C8_register_overwrites (agents : List Agent) (a b : Agent)
    (hmem : b ∈ agents) (hid : b.id = a.id) :
    (registerAgent agents a).length = agents.length ∧
    (registerAgent agents a).find? (fun c => c.id == a.id) = some a := by
  have hany : agents.any (fun c => c.id == a.id) = true :=
    List.any_eq_true.mpr ⟨b, hmem, by simp [hid]⟩
  unfold registerAgent
  rw [if_pos hany]
  exact ⟨List.length_map _ _, find?_map_replace agents a ⟨b, hmem, hid⟩⟩

/-- C8 witness: the overwrite behaviour at a concrete one-agent
registry. -/
theorem C8_register_overwrites_witness :
    (registerAgent [echoAgentA] echoAgentA2).length =
      ([echoAgentA] : List Agent).length ∧
    (registerAgent [echoAgentA] echoAgentA2).find?
      (fun c => c.id == echoAgentA2.id) = some echoAgentA2 :=
  C8_register_overwrites [echoAgentA] echoAgentA2 echoAgentA
    (List.Mem.head _) rfl

/-- C6 counterexample: for an execution in the terminal cancelled state
getTaskResult returns the in-progress message, not the stored fields. -/
theorem C6_counterexample :
    getTaskResult (sysWithRows [cancelledRowE1]) "e1" =
      Except.ok (ResultView.inProgress ExecStatus.cancelled
        "Task execution is still in progress") ∧
    ResultView.inProgress ExecStatus.cancelled
        "Task execution is still in progress" ≠
      ResultView.finished cancelledRowE1.status cancelledRowE1.result
        cancelledRowE1.error cancelledRowE1.completed_at :=
  ⟨rfl, by decide⟩

/-- C6 (amended): getTaskResult returns the stored status, result,
error and completion time only for the statuses completed and failed;
for pending, running and also the terminal status cancelled it returns
the status together with the still-in-progress message and no stored
fields. -/
theorem C6_getTaskResult_views (sys : Sys) (executionId : String) (row : ExecRow)
    (hfind : findExec sys.db.task_executions executionId = some row) :
    ((row.status = ExecStatus.completed ∨ row.status = ExecStatus.failed) →
      getTaskResult sys executionId =
        Except.ok (ResultView.finished row.status row.result row.error
          row.completed_at)) ∧
    ((row.status = ExecStatus.pending ∨ row.status = ExecStatus.running ∨
        row.status = ExecStatus.cancelled) →
      getTaskResult sys executionId =
        Except.ok (ResultView.inProgress row.status
          "Task execution is still in progress")) := by
  have h1 : getTaskResult sys executionId =
      if row.status ≠ ExecStatus.completed ∧ row.status ≠ ExecStatus.failed then
        Except.ok (ResultView.inProgress row.status
          "Task execution is still in progress")
      else
        Except.ok (ResultView.finished row.status row.result row.error
          row.completed_at) := by
    unfold getTaskResult
    rw [hfind]
  constructor
  · intro hterm
    have hc : ¬ (row.status ≠ ExecStatus.completed ∧ row.status ≠ ExecStatus.failed) := by
      rcases hterm with h | h
      · intro hc2
        exact hc2.1 h
      · intro hc2
        exact hc2.2 h
    rw [h1, if_neg hc]
  · intro hnt
    have hc : row.status ≠ ExecStatus.completed ∧ row.status ≠ ExecStatus.failed := by
      rcases hnt with h | h | h <;> rw [h] <;> exact ⟨by decide, by decide⟩
    rw [h1, if_pos hc]

/-- C6 witness: for a completed execution the stored fields are
returned. -/
theorem C6_getTaskResult_views_witness :
    ((completedRowE1.status = ExecStatus.completed ∨
        completedRowE1.status = ExecStatus.failed) →
      getTaskResult (sysWithRows [completedRowE1]) "e1" =
        Except.ok (ResultView.finished completedRowE1.status completedRowE1.result
          completedRowE1.error completedRowE1.completed_at)) ∧
    ((completedRowE1.status = ExecStatus.pending ∨
        completedRowE1.status = ExecStatus.running ∨
        completedRowE1.status = ExecStatus.cancelled) →
      getTaskResult (sysWithRows [completedRowE1]) "e1" =
        Except.ok (ResultView.inProgress completedRowE1.status
          "Task execution is still in progress")) :=
  C6_getTaskResult_views (sysWithRows [completedRowE1]) "e1" completedRowE1 rfl

/-- C9: a submission whose task type has no row in the tasks table
fails with TaskNotFoundError carrying the task type and leaves the
system state unchanged — no execution record is created — even when a
registered agent is capable of the task type. -/
theorem C9_taskdef_precondition (env : Env) (sys : Sys) (executionId : String)
    (now : Nat) (taskType : String) (brand : Option String)
    (parameters : Params) (priority : Option String) (callback : Option String)
    (a : Agent)
    (hnodef : sys.db.tasks.find? (fun t => t.type == taskType) = none)
    (hagent : findAgentForTask env.agents taskType = some a) :
    submitTask env sys executionId now taskType brand parameters priority callback
      = (Except.error (OrchError.taskNotFound taskType), sys) := by
  unfold submitTask
  rw [hnodef]

/-- C9 witness: submitting t1 with an empty tasks table and a capable
registered agent. -/
theorem C9_taskdef_precondition_witness :
    submitTask (baseEnv [okAgent] (Except.ok "job-1")) sysNoDef "e1" 0 "t1"
      none [] none none
      = (Except.error (OrchError.taskNotFound "t1"), sysNoDef) :=
  C9_taskdef_precondition _ _ _ _ _ _ _ _ _ okAgent rfl rfl

/-- C3 counterexample: with the task definition present but no capable
agent, submit surfaces TaskNotFoundError — the same error class (code
TASK_NOT_FOUND) that is raised for a missing task definition — so no
dedicated routing-failure error class distinct from the not-found class
exists. -/
theorem C3_counterexample :
    (submitTask (baseEnv [] (Except.ok "job-1")) sysWithDef "e1" 0 "t1"
        none [] none none).1
      = Except.error (OrchError.taskNotFound
          ("No agent found for task type: " ++ "t1")) ∧
    (submitTask (baseEnv [okAgent] (Except.ok "job-1")) sysNoDef "e2" 0 "t1"
        none [] none none).1
      = Except.error (OrchError.taskNotFound "t1") ∧
    OrchError.code (OrchError.taskNotFound
        ("No agent found for task type: " ++ "t1"))
      = OrchError.code (OrchError.taskNotFound "t1") :=
  ⟨rfl, rfl, rfl⟩

/-- C3 (amended): for a submission whose task type has a definition row
but which no registered agent can execute, submit fails with
TaskNotFoundError (the class the source also uses for a missing task
definition, code TASK_NOT_FOUND) carrying the no-agent message, and the
system state is unchanged: no execution record is created. -/
theorem C3_unroutable_submit (env : Env) (sys : Sys) (executionId : String)
    (now : Nat) (taskType : String) (brand : Option String) (parameters : Params)
    (priority : Option String) (callback : Option String) (td : TaskDefRow)
    (hdef : sys.db.tasks.find? (fun t => t.type == taskType) = some td)
    (hnoagent : findAgentForTask env.agents taskType = none) :
    submitTask env sys executionId now taskType brand parameters priority callback
      = (Except.error (OrchError.taskNotFound
          ("No agent found for task type: " ++ taskType)), sys) := by
  unfold submitTask
  rw [hdef]
  unfold routeTask
  rw [hnoagent]

/-- C3 witness: submitting t1 against an empty registry with the t1
definition present. -/
theorem C3_unroutable_submit_witness :
    submitTask (baseEnv [] (Except.ok "job-1")) sysWithDef "e9" 0 "t1"
      none [] none none
      = (Except.error (OrchError.taskNotFound
          ("No agent found for task type: " ++ "t1")), sysWithDef) :=
  C3_unroutable_submit _ _ _ _ _ _ _ _ _ taskDefT1 rfl rfl

/-- Appending a fresh row and looking its id up yields its status. -/
theorem findExec_append_status (l : List ExecRow) (row : ExecRow)
    (hfresh : findExec l row.id = none) :
    (findExec (l ++ [row]) row.id).map ExecRow.status = some row.status := by
  rw [findExec_append_fresh l row hfresh]
  rfl

/-- C1 counterexample: with the t1 definition present, a capable agent
and a failing queue add, submit propagates TaskExecutionError but the
just-created record is left in status pending — it is not transitioned
to failed — and no job is queued. -/
theorem C1_counterexample :
    (submitTask (baseEnv [okAgent] (Except.error "redis down")) sysWithDef
        "e1" 7 "t1" none [] none none).1
      = Except.error (OrchError.taskExecution
          ("Failed to submit task: " ++ ("Failed to queue task: " ++ "redis down"))) ∧
    (findExec (submitTask (baseEnv [okAgent] (Except.error "redis down")) sysWithDef
        "e1" 7 "t1" none [] none none).2.db.task_executions "e1").map ExecRow.status
      = some ExecStatus.pending ∧
    ExecStatus.pending ≠ ExecStatus.failed ∧
    (submitTask (baseEnv [okAgent] (Except.error "redis down")) sysWithDef
        "e1" 7 "t1" none [] none none).2.jobs = [] :=
  ⟨rfl, rfl, by decide, rfl⟩

/-- C1 (amended): when the task type is defined and routable and the
queue add fails, submit raises TaskExecutionError to the caller but
leaves the just-created execution record in status pending — it is not
transitioned to failed — and adds no job to the queue, so an orphaned
pending record remains. -/
theorem C1_enqueue_failure_orphan (env : Env) (sys : Sys) (executionId : String)
    (now : Nat) (taskType : String) (brand : Option String) (parameters : Params)
    (priority : Option String) (callback : Option String) (td : TaskDefRow)
    (agentId : String) (cfg : TaskConfig) (emsg : String)
    (hdef : sys.db.tasks.find? (fun t => t.type == taskType) = some td)
    (hroute : routeTask env taskType brand = Except.ok (agentId, cfg))
    (hq : env.queueAdd = Except.error emsg)
    (hfresh : findExec sys.db.task_executions executionId = none) :
    (submitTask env sys executionId now taskType brand parameters priority
        callback).1
      = Except.error (OrchError.taskExecution
          ("Failed to submit task: " ++ ("Failed to queue task: " ++ emsg))) ∧
    (findExec (submitTask env sys executionId now taskType brand parameters
        priority callback).2.db.task_executions executionId).map ExecRow.status
      = some ExecStatus.pending ∧
    (submitTask env sys executionId now taskType brand parameters priority
        callback).2.jobs = sys.jobs := by
  have h1 : (submitTask env sys executionId now taskType brand parameters priority
      callback).1
      = Except.error (OrchError.taskExecution
          ("Failed to submit task: " ++ ("Failed to queue task: " ++ emsg))) := by
    unfold submitTask
    rw [hdef, hroute]
    simp only [addTask, hq, OrchError.message]
  have h2 : (findExec (submitTask env sys executionId now taskType brand
      parameters priority callback).2.db.task_executions executionId).map
      ExecRow.status = some ExecStatus.pending := by
    unfold submitTask
    rw [hdef, hroute]
    simp only [addTask, hq]
    exact findExec_append_status sys.db.task_executions _ hfresh
  have h3 : (submitTask env sys executionId now taskType brand parameters
      priority callback).2.jobs = sys.jobs := by
    unfold submitTask
    rw [hdef, hroute]
    simp only [addTask, hq]
  exact ⟨h1, h2, h3⟩

/-- C1 witness: the orphaned pending record at a concrete failing
queue. -/
theorem C1_enqueue_failure_orphan_witness :
    (submitTask (baseEnv [okAgent] (Except.error "redis down")) sysWithDef
        "e8" 7 "t1" none [] none none).1
      = Except.error (OrchError.taskExecution
          ("Failed to submit task: " ++ ("Failed to queue task: " ++ "redis down"))) ∧
    (findExec (submitTask (baseEnv [okAgent] (Except.error "redis down")) sysWithDef
        "e8" 7 "t1" none [] none none).2.db.task_executions "e8").map ExecRow.status
      = some ExecStatus.pending ∧
    (submitTask (baseEnv [okAgent] (Except.error "redis down")) sysWithDef
        "e8" 7 "t1" none [] none none).2.jobs = sysWithDef.jobs :=
  C1_enqueue_failure_orphan _ _ _ _ _ _ _ _ _ taskDefT1 "agent-1"
    defaultTaskConfig "redis down" rfl rfl rfl rfl

/-- The first cancel of a pending-or-running execution updates only the
task_executions rows of that execution id. -/
theorem cancelTask_db_of_active (sys : Sys) (executionId : String) (now : Nat)
    (row : ExecRow)
    (hfind : findExec sys.db.task_executions executionId = some row)
    (hcond : ¬ (row.status ≠ ExecStatus.pending ∧ row.status ≠ ExecStatus.running)) :
    (cancelTask sys executionId now).2.db.task_executions
      = updateRows sys.db.task_executions executionId
          (fun r => { r with status := ExecStatus.cancelled,
                             completed_at := some now }) := by
  unfold cancelTask
  rw [hfind]
  simp [hcond]

/-- C7: cancelling an existing execution whose status is pending or
running returns true; an immediately repeated cancel (with no
interleaved writers) returns false; neither call raises an error. -/
theorem C7_cancel_idempotent (sys : Sys) (executionId : String)
    (now1 now2 : Nat) (row : ExecRow)
    (hfind : findExec sys.db.task_executions executionId = some row)
    (hactive : row.status = ExecStatus.pending ∨ row.status = ExecStatus.running) :
    (cancelTask sys executionId now1).1 = Except.ok true ∧
    (cancelTask (cancelTask sys executionId now1).2 executionId now2).1
      = Except.ok false := by
  have hcond : ¬ (row.status ≠ ExecStatus.pending ∧
      row.status ≠ ExecStatus.running) := by
    rcases hactive with h | h
    · intro hc
      exact hc.1 h
    · intro hc
      exact hc.2 h
  have hdb := cancelTask_db_of_active sys executionId now1 row hfind hcond
  have h2 : findExec (cancelTask sys executionId now1).2.db.task_executions
      executionId
      = some { row with status := ExecStatus.cancelled,
                        completed_at := some now1 } := by
    rw [hdb]
    exact findExec_updateRows_status sys.db.task_executions executionId
      (fun r => { r with status := ExecStatus.cancelled,
                         completed_at := some now1 })
      (fun r => rfl) row hfind
  constructor
  · unfold cancelTask
    rw [hfind]
    simp [hcond]
  · set S := (cancelTask sys executionId now1).2 with hS
    unfold cancelTask
    rw [h2]
    simp

/-- C7 witness: double cancel of a concrete pending execution. -/
theorem C7_cancel_idempotent_witness :
    (cancelTask (sysWithRows [pendingRowE1]) "e1" 4).1 = Except.ok true ∧
    (cancelTask (cancelTask (sysWithRows [pendingRowE1]) "e1" 4).2 "e1" 5).1
      = Except.ok false :=
  C7_cancel_idempotent (sysWithRows [pendingRowE1]) "e1" 4 5 pendingRowE1
    rfl (Or.inl rfl)

/-- C2 counterexample: processing a job for an execution already in the
terminal cancelled state silently writes running and then completed
over it — the invalid transition cancelled-to-running is performed
without any failure. -/
theorem C2_counterexample :
    (processJob (baseEnv [okAgent] (Except.ok "j")) (sysWithRows [cancelledRowE1])
        activeJobE1 9).1 = Except.ok "done" ∧
    (findExec (processJob (baseEnv [okAgent] (Except.ok "j"))
        (sysWithRows [cancelledRowE1]) activeJobE1 9).2.db.task_executions
        "e1").map ExecRow.status = some ExecStatus.completed ∧
    (processJob (baseEnv [okAgent] (Except.ok "j")) (sysWithRows [cancelledRowE1])
        activeJobE1 9).2.trace
      = [("e1", ExecStatus.running), ("e1", ExecStatus.completed)] ∧
    validTransition ExecStatus.cancelled ExecStatus.running = false :=
  ⟨rfl, rfl, rfl, rfl⟩

/-- C2 (amended): cancelTask guards its transition — from any terminal
status it returns false and leaves the state unchanged — but the
job-processing status writes are unconditional: processing a job whose
execution is already terminal writes running and then the terminal
outcome over the stored status without failing. -/
theorem C2_transition_guards (sys : Sys) (executionId : String) (now : Nat)
    (row : ExecRow)
    (hfind : findExec sys.db.task_executions executionId = some row)
    (hterm : row.status = ExecStatus.completed ∨ row.status = ExecStatus.failed ∨
      row.status = ExecStatus.cancelled) :
    cancelTask sys executionId now = (Except.ok false, sys) ∧
    (∀ env (job : QueueJob) result agent,
      job.data.executionId = executionId →
      findAgentForTask env.agents job.data.taskType = some agent →
      job.data.brand = none →
      (∀ ctx, agent.executeTask ctx = Except.ok result) →
      (processJob env sys job now).1 = Except.ok result ∧
      (findExec (processJob env sys job now).2.db.task_executions
        executionId).map ExecRow.status = some ExecStatus.completed) := by
  constructor
  · have hcond : row.status ≠ ExecStatus.pending ∧
        row.status ≠ ExecStatus.running := by
      rcases hterm with h | h | h <;> rw [h] <;> exact ⟨by decide, by decide⟩
    unfold cancelTask
    rw [hfind]
    simp [hcond.1, hcond.2]
  · intro env job result agent heid hagent hbrand hok
    constructor
    · unfold processJob
      simp only [hagent, hbrand, hok]
    · unfold processJob
      simp only [hagent, hbrand, hok, heid]
      have ha := findExec_updateRows_status sys.db.task_executions executionId
        (fun r => { r with status := ExecStatus.running, started_at := some now })
        (fun r => rfl) row hfind
      have hb := findExec_updateRows_status _ executionId
        (fun r => { r with status := ExecStatus.completed,
                           result := some result, completed_at := some now })
        (fun r => rfl) _ ha
      rw [hb]
      rfl

/-- C2 witness: the guards at a concrete cancelled execution with a
succeeding agent. -/
theorem C2_transition_guards_witness :
    cancelTask (sysWithRows [cancelledRowE1]) "e1" 9
      = (Except.ok false, sysWithRows [cancelledRowE1]) ∧
    (∀ env (job : QueueJob) result agent,
      job.data.executionId = "e1" →
      findAgentForTask env.agents job.data.taskType = some agent →
      job.data.brand = none →
      (∀ ctx, agent.executeTask ctx = Except.ok result) →
      (processJob env (sysWithRows [cancelledRowE1]) job 9).1 = Except.ok result ∧
      (findExec (processJob env (sysWithRows [cancelledRowE1])
        job 9).2.db.task_executions "e1").map ExecRow.status
        = some ExecStatus.completed) :=
  C2_transition_guards (sysWithRows [cancelledRowE1]) "e1" 9 cancelledRowE1
    rfl (Or.inr (Or.inr rfl))

/-- Processing a job whose agent always throws returns the thrown
message and appends exactly a running write and a failed write to the
trace. -/
theorem processJob_fail_trace (env : Env) (sys : Sys) (job : QueueJob)
    (now : Nat) (agent : Agent) (emsg : String)
    (hagent : findAgentForTask env.agents job.data.taskType = some agent)
    (hbrand : job.data.brand = none)
    (hfail : ∀ ctx, agent.executeTask ctx = Except.error emsg) :
    (processJob env sys job now).1 = Except.error emsg ∧
    (processJob env sys job now).2.trace
      = sys.trace ++ [(job.data.executionId, ExecStatus.running),
                      (job.data.executionId, ExecStatus.failed)] := by
  constructor
  · unfold processJob
    simp only [hagent, hbrand, hfail]
  · unfold processJob
    simp only [hagent, hbrand, hfail]
    simp

/-- Counting failed writes over an appended running-failed pair. -/
theorem failedWrites_append_runfail (t : List (String × ExecStatus))
    (eid : String) :
    failedWrites (t ++ [(eid, ExecStatus.running), (eid, ExecStatus.failed)]) eid
      = failedWrites t eid + 1 := by
  simp [failedWrites, List.filter_append]

/-- The retry loop with an always-throwing agent: with fuel m + 1 the
processor runs m + 1 times and appends m + 1 failed writes. -/
theorem runRetries_fail_count (env : Env) (job : QueueJob) (now : Nat)
    (agent : Agent) (emsg : String)
    (hagent : findAgentForTask env.agents job.data.taskType = some agent)
    (hbrand : job.data.brand = none)
    (hfail : ∀ ctx, agent.executeTask ctx = Except.error emsg) :
    ∀ m sys, (runJobWithRetries env job now (Nat.succ m) sys).1 = Nat.succ m ∧
      failedWrites (runJobWithRetries env job now (Nat.succ m) sys).2.trace
          job.data.executionId
        = failedWrites sys.trace job.data.executionId + Nat.succ m := by
  intro m
  induction m with
  | zero =>
    intro sys
    rcases hpj : processJob env sys job now with ⟨res, S⟩
    have hp := processJob_fail_trace env sys job now agent emsg hagent hbrand hfail
    rw [hpj] at hp
    obtain ⟨hres, htr⟩ := hp
    simp only at hres htr
    subst hres
    simp only [runJobWithRetries, hpj]
    refine ⟨rfl, ?_⟩
    show failedWrites S.trace job.data.executionId = _
    rw [htr, failedWrites_append_runfail]
  | succ k ih =>
    intro sys
    rcases hpj : processJob env sys job now with ⟨res, S⟩
    have hp := processJob_fail_trace env sys job now agent emsg hagent hbrand hfail
    rw [hpj] at hp
    obtain ⟨hres, htr⟩ := hp
    simp only at hres htr
    subst hres
    simp only [runJobWithRetries, hpj, if_neg (Nat.succ_ne_zero k)]
    obtain ⟨ih1, ih2⟩ := ih S
    simp only [runJobWithRetries] at ih1 ih2
    refine ⟨?_, ?_⟩
    · rw [ih1]
    · rw [ih2, htr, failedWrites_append_runfail]
      omega

/-- C4 counterexample: with maxAttempts 3 and an always-throwing agent
the handler runs exactly 3 times, but the failed/error write happens 3
times, not once. -/
theorem C4_counterexample :
    (runJobWithRetries envFail activeJobE1 5 3 (sysWithRows [pendingRowE1])).1
      = 3 ∧
    failedWrites (runJobWithRetries envFail activeJobE1 5 3
        (sysWithRows [pendingRowE1])).2.trace "e1" = 3 ∧
    (3 : Nat) ≠ 1 :=
  ⟨rfl, rfl, by decide⟩

/-- C4 (amended): a job whose handler throws on every attempt invokes
the handler exactly maxAttempts times, and the execution's failed/error
write happens once per attempt — maxAttempts times in total, not
exactly once. -/
theorem C4_retry_exhaustion (env : Env) (job : QueueJob) (now : Nat)
    (agent : Agent) (emsg : String) (m : Nat) (sys : Sys)
    (hm : 0 < m)
    (hagent : findAgentForTask env.agents job.data.taskType = some agent)
    (hbrand : job.data.brand = none)
    (hfail : ∀ ctx, agent.executeTask ctx = Except.error emsg) :
    (runJobWithRetries env job now m sys).1 = m ∧
    failedWrites (runJobWithRetries env job now m sys).2.trace
        job.data.executionId
      = failedWrites sys.trace job.data.executionId + m := by
  cases m with
  | zero => exact absurd hm (by decide)
  | succ k =>
    exact runRetries_fail_count env job now agent emsg hagent hbrand hfail k sys

/-- C4 witness: three attempts of the always-throwing agent on a
concrete system produce three invocations and three failed writes. -/
theorem C4_retry_exhaustion_witness :
    (runJobWithRetries envFail activeJobE1 6 3 (sysWithRows [pendingRowE1])).1
      = 3 ∧
    failedWrites (runJobWithRetries envFail activeJobE1 6 3
        (sysWithRows [pendingRowE1])).2.trace activeJobE1.data.executionId
      = failedWrites (sysWithRows [pendingRowE1]).trace
          activeJobE1.data.executionId + 3 :=
  C4_retry_exhaustion envFail activeJobE1 6 failAgent "boom" 3
    (sysWithRows [pendingRowE1]) (by decide) rfl rfl (fun _ => rfl)

end UAF
